import Mathlib

/-!
Shallow embedding of `bot/exts/valentines/markov_poem_generator.py`
(the markov poem generator cog of sir-lancebot).

Pure string helpers, the rhyme cache, scheme parsing and the generation
loop are translated into executable Lean functions.  The markov sentence
sampler and the rhyme web API are the two external collaborators; they are
modelled as an environment: an infinite stream of sentences (indexed by
draw number) and a deterministic oracle from words to an optional rhyme
set (`none` models a non-200 response, i.e. `RhymeAPIUnresponsive`).
-/

set_option autoImplicit false
set_option maxRecDepth 4000

/-- Python `string.punctuation`: the ASCII characters 33-47, 58-64, 91-96
and 123-126, used by `_get_last_word` via `str.strip`. -/
def punctuationChars : List Char :=
  ([33, 34, 35, 36, 37, 38, 39, 40, 41, 42, 43, 44, 45, 46, 47,
    58, 59, 60, 61, 62, 63, 64, 91, 92, 93, 94, 95, 96,
    123, 124, 125, 126].map Char.ofNat)

/-- Python `str.split()` whitespace: space, tab, newline, carriage return,
vertical tab, form feed. -/
def isSpaceChar (c : Char) : Bool :=
  [32, 9, 10, 13, 11, 12].contains c.toNat

/-- `listStartsWith needle hay` is true when `needle` is a leading segment
of `hay` (helper for the Python substring test `needle in hay`). -/
def listStartsWith : List Char → List Char → Bool
  | [], _ => true
  | _ :: _, [] => false
  | a :: as, b :: bs => a == b && listStartsWith as bs

/-- Python `needle in hay` on strings: substring containment.  Used because
`send_markov_poem` passes `"\n".join(acc_lines)` (a single string) as the
`existing_lines` argument of `_get_rhyming_line`, so `line not in
existing_lines` is a substring test. -/
def strContains (hay needle : String) : Bool :=
  hay.data.tails.any (fun t => listStartsWith needle.data t)

/-- Python `str.strip(chars)`: remove the characters of `cs` from both ends
of the character list `l`. -/
def stripChars (cs : List Char) (l : List Char) : List Char :=
  ((l.dropWhile (fun c => cs.contains c)).reverse.dropWhile
    (fun c => cs.contains c)).reverse

/-- Embeds `_get_last_word`: `sentence.strip(string.punctuation).split()[-1]`.
`split()[-1]` is the last whitespace-delimited token, i.e. after dropping
trailing whitespace, the maximal non-whitespace suffix.  The Python code
raises `IndexError` when no token exists; that failure is modelled by
`none`. -/
def lastWordOpt (s : String) : Option String :=
  let stripped := stripChars punctuationChars s.data
  let r := stripped.reverse.dropWhile isSpaceChar
  if r.isEmpty then none
  else some (String.mk ((r.takeWhile (fun c => !isSpaceChar c)).reverse))

/-- Embeds `Cache.__enter__`'s normalization `word.replace("'", "e")`
(ASCII 39 is the apostrophe). -/
def normalizeWord (w : String) : String :=
  String.mk (w.data.map (fun c => if c == Char.ofNat 39 then 'e' else c))

/-- Python `"\n".join(acc_lines)` as used in `send_markov_poem`. -/
def joinLines (ls : List String) : String :=
  String.intercalate "\n" ls

/-- Embeds the `memoize` decorator around `_get_rhyme_set` together with the
`Cache` context manager.  The cache is an association list from words to
rhyme sets; the oracle models `_get_rhyme_set`'s web calls, with `none`
standing for a raised `RhymeAPIUnresponsive`.  Returns the updated cache,
the result (`none` = the exception propagated, nothing cached), and whether
the oracle was invoked.  The word is normalized before both lookup and
storage, and the oracle is called on the normalized word, exactly as the
rebinding in `Cache.__enter__` does. -/
def getOrCompute (cache : List (String × List String)) (word : String)
    (oracle : String → Option (List String)) :
    List (String × List String) × Option (List String) × Bool :=
  let w := normalizeWord word
  match cache.lookup w with
  | some rs => (cache, some rs, false)
  | none =>
    match oracle w with
    | some rs => ((w, rs) :: cache, some rs, true)
    | none => (cache, none, true)

/-- The `templates` dict of `MarkovPoemGenerator`. -/
def templates : List (String × String) :=
  [("shakespearean-sonnet", "abab/cdcd/efef/gg"),
   ("spenserian-sonnet", "abab/bcbc/cdcd/ee"),
   ("petrarch-sonnet", "abbaabba/cdecde"),
   ("ballade", "ababbcbc"),
   ("terza-rima", "aba/bcb/cdc/ded/ee"),
   ("villanelle", "aba/aba/aba/aba/aba/abaa"),
   ("limerick", "aabba")]

/-- Python `str.lower()` on the ASCII schemes and template keys in play. -/
def toLowerStr (s : String) : String :=
  String.mk (s.data.map Char.toLower)

/-- Embeds the first two lines of the `poem` command:
`scheme = rhyme_scheme.lower()` followed by
`scheme = self.templates.get(scheme, scheme)`. -/
def resolveScheme (rhymeScheme : String) : String :=
  let s := toLowerStr rhymeScheme
  (templates.lookup s).getD s

/-- Embeds `_get_unit_count`:
`{char: scheme.count(char) for char in set(scheme)}`.  Values are integers
because `send_markov_poem` decrements them without a lower bound. -/
def getUnitCount (scheme : String) : List (Char × Int) :=
  scheme.data.dedup.map (fun c => (c, (scheme.data.count c : Int)))

/-- The class constant `rhyming_line_finder_limiter = 80000`, the default
`limiter` of `_get_rhyming_line`. -/
def rhymingLineFinderLimiter : Nat := 80000

/-- The two external collaborators of the cog: `sents n` is the sentence the
markov model returns on the n-th call of `_get_sentence` (the stream is
total: `MakeShortSentenceRanOut` is out of scope of the claims), and
`rhymes w` is the rhyme set the datamuse APIs yield for `w`, with `none`
modelling a non-200 response (`RhymeAPIUnresponsive`). -/
structure Env where
  sents : Nat → String
  rhymes : String → Option (List String)

/-- The mutable state threaded through one or more generation attempts:
the index of the next sentence draw and the process-wide rhyme cache. -/
structure GenState where
  idx : Nat
  cache : List (String × List String)
  deriving DecidableEq, Repr

/-- The exceptions the generation code can raise.  `rhymeNotFound` embeds
`RhymingSentenceNotFound` and carries the `is_first_error` flag that
selected the message sent by `_handle_rhyming_sentence_not_found`, plus the
`scheme` and (mutated) `unit_count` stored on the exception.  `outOfFuel`
is a model artifact standing for non-termination of the unbounded
`_init_unit` loop; no theorem's instance reaches it. -/
inductive PErr where
  | indexError
  | rhymeUnavailable
  | outOfFuel
  | rhymeNotFound (isFirst : Bool) (scheme : String) (uc : List (Char × Int))
  deriving DecidableEq, Repr

/-- Result of a fallible generation step. -/
inductive Res (α : Type) where
  | ok (a : α)
  | err (e : PErr)
  deriving DecidableEq, Repr

/-- Embeds `_get_sentence`: draw the next sentence from the stream. -/
def getSentence (env : Env) (st : GenState) : String × GenState :=
  (env.sents st.idx, { st with idx := st.idx + 1 })

/-- The memoized `_get_rhyme_set` as invoked during generation: the cache
lives in `GenState`, the oracle is `env.rhymes`, and a `none` from the
oracle raises `RhymeAPIUnresponsive` (nothing is cached then). -/
def getRhymeSetSt (env : Env) (st : GenState) (word : String) :
    GenState × Res (List String) :=
  match getOrCompute st.cache word env.rhymes with
  | (c, some rs, _) => ({ st with cache := c }, .ok rs)
  | (c, none, _) => ({ st with cache := c }, .err .rhymeUnavailable)

/-- The loop of `_get_rhyming_line` after the initial draw.  The Python
loop runs `while last_word not in word_rhymes and line not in
existing_lines`, checks `curr >= limiter` before each new draw, and raises
via `_handle_rhyming_sentence_not_found` (which receives `is_first_error`,
`scheme` and `unit_count` through `error_info`).  `remaining` is
`limiter - curr`. -/
def grlAux (env : Env) (wordRhymes : List String) (existingLines : String)
    (isFirst : Bool) (scheme : String) (uc : List (Char × Int)) :
    Nat → String → GenState → GenState × Res String
  | remaining, line, st =>
    match lastWordOpt line with
    | none => (st, .err .indexError)
    | some w =>
      if !(wordRhymes.contains w) && !(strContains existingLines line) then
        match remaining with
        | 0 => (st, .err (.rhymeNotFound isFirst scheme uc))
        | r + 1 =>
          let (line2, st2) := getSentence env st
          grlAux env wordRhymes existingLines isFirst scheme uc r line2 st2
      else (st, .ok line)

/-- Embeds `_get_rhyming_line`: one initial draw, then the bounded loop. -/
def getRhymingLine (env : Env) (wordRhymes : List String)
    (existingLines : String) (isFirst : Bool) (scheme : String)
    (uc : List (Char × Int)) (limiter : Nat) (st : GenState) :
    GenState × Res String :=
  let (line, st2) := getSentence env st
  grlAux env wordRhymes existingLines isFirst scheme uc limiter line st2

/-- One pass of `_init_unit`'s inner `_get_line_and_rhyme_set`: draw a
sentence, take its last word, fetch that word's rhyme set through the
cache. -/
def getLineAndRhymeSet (env : Env) (st : GenState) :
    GenState × Res (String × List String) :=
  let (line, st2) := getSentence env st
  match lastWordOpt line with
  | none => (st2, .err .indexError)
  | some w =>
    match getRhymeSetSt env st2 w with
    | (st3, .ok rs) => (st3, .ok (line, rs))
    | (st3, .err e) => (st3, .err e)

/-- The `while len(rhyme_set) == 0` loop of `_init_unit`, fuelled (the
Python loop is unbounded). -/
def initUnitAux (env : Env) : Nat → GenState → GenState × Res (String × List String)
  | 0, st => (st, .err .outOfFuel)
  | fuel + 1, st =>
    match getLineAndRhymeSet env st with
    | (st2, .err e) => (st2, .err e)
    | (st2, .ok (line, rs)) =>
      if rs.isEmpty then initUnitAux env fuel st2 else (st2, .ok (line, rs))

/-- Embeds `_init_unit` (without the `rhyme_track[unit] = rhyme_set` store,
which the assembler performs on the returned set): when `is_last_line`,
a single draw whose rhyme set is fetched but not required non-empty;
otherwise draw until the last word's rhyme set is non-empty. -/
def initUnit (env : Env) (fuel : Nat) (isLastLine : Bool) (st : GenState) :
    GenState × Res (String × List String) :=
  if isLastLine then getLineAndRhymeSet env st
  else initUnitAux env fuel st

/-- Python `unit_count[unit] -= 1` on the association list. -/
def decr (uc : List (Char × Int)) (u : Char) : List (Char × Int) :=
  uc.map (fun p => if p.1 == u then (p.1, p.2 - 1) else p)

/-- Python `rhyme_track[unit] |= new_set` (set union modelled as append;
only membership and emptiness of rhyme sets are ever observed). -/
def updateTrack (track : List (Char × List String)) (u : Char)
    (rs : List String) : List (Char × List String) :=
  track.map (fun p => if p.1 == u then (p.1, p.2 ++ rs) else p)

/-- The `for unit in scheme` body of `send_markov_poem`: compute
`is_last_line` from `unit_count[unit] == 1`; on `"/"` append an empty line
and continue (no decrement); on a unit not yet in `rhyme_track` call
`_init_unit` and store its rhyme set; otherwise call `_get_rhyming_line`
with `rhyme_track[unit]` and the joined accumulated lines, and, when not
the last line of the group, extend `rhyme_track[unit]` with the rhyme set
of the new line's last word.  Decrement the unit's count at the end of the
iteration. -/
def assembleAux (env : Env) (fuel limiter : Nat) (isFirst : Bool)
    (scheme : String) :
    List Char → List String → List (Char × List String) →
    List (Char × Int) → GenState →
    GenState × Res (List String × List (Char × Int))
  | [], acc, _, uc, st => (st, .ok (acc, uc))
  | u :: rest, acc, track, uc, st =>
    let isLastLine : Bool := uc.lookup u == some 1
    if u == '/' then
      assembleAux env fuel limiter isFirst scheme rest (acc ++ [""]) track uc st
    else if (track.lookup u).isNone then
      match initUnit env fuel isLastLine st with
      | (st2, .err e) => (st2, .err e)
      | (st2, .ok (line, rs)) =>
        assembleAux env fuel limiter isFirst scheme rest (acc ++ [line])
          ((u, rs) :: track) (decr uc u) st2
    else
      match getRhymingLine env ((track.lookup u).getD []) (joinLines acc)
          isFirst scheme uc limiter st with
      | (st2, .err e) => (st2, .err e)
      | (st2, .ok line) =>
        if isLastLine then
          assembleAux env fuel limiter isFirst scheme rest (acc ++ [line])
            track (decr uc u) st2
        else
          match lastWordOpt line with
          | none => (st2, .err .indexError)
          | some w =>
            match getRhymeSetSt env st2 w with
            | (st3, .err e) => (st3, .err e)
            | (st3, .ok rs) =>
              assembleAux env fuel limiter isFirst scheme rest (acc ++ [line])
                (updateTrack track u rs) (decr uc u) st3

/-- Embeds one call of `send_markov_poem`: walk the scheme's characters
with empty accumulated lines and empty `rhyme_track`.  On success the
produced lines and the final (mutated) `unit_count` are returned; on
failure the raised exception. -/
def sendMarkovPoem (env : Env) (fuel limiter : Nat) (scheme : String)
    (uc : List (Char × Int)) (isFirst : Bool) (st : GenState) :
    GenState × Res (List String × List (Char × Int)) :=
  assembleAux env fuel limiter isFirst scheme scheme.data [] [] uc st

/-- The user-visible messages relevant to the claims: the two texts sent by
`_handle_rhyming_sentence_not_found` (selected by `is_first_error`), the
embed sent by `cog_command_error` for `RhymeAPIUnresponsive`, and the
delivered poem. -/
inductive Msg where
  | takingAWhile
  | finalApology
  | apiDown
  | poem (lines : List String)
  deriving DecidableEq, Repr

/-- Embeds the `poem` command together with `cog_command_error`.  Modelled
from the spec: the surrounding command framework dispatches an error raised
by the command to `cog_command_error` once, and an error raised inside
`cog_command_error` itself is not re-dispatched ("a second such failure is
terminal... rather than retried again"); this dispatch rule is the only
piece not in the repository source.  The first attempt runs with
`is_first_error = True`; on `RhymingSentenceNotFound` the handler re-invokes
`send_markov_poem` with the exception's `scheme` and (already decremented)
`unit_count` and `is_first_error=False`.  The pair returned is the message
sequence and the number of `send_markov_poem` invocations started. -/
def runPoemCommand (env : Env) (fuel limiter : Nat) (rhymeScheme : String) :
    List Msg × Nat :=
  let scheme := resolveScheme rhymeScheme
  match sendMarkovPoem env fuel limiter scheme (getUnitCount scheme) true
      ⟨0, []⟩ with
  | (_, .ok (lines, _)) => ([.poem lines], 1)
  | (st, .err (.rhymeNotFound _ sch uc)) =>
    match sendMarkovPoem env fuel limiter sch uc false st with
    | (_, .ok (lines, _)) => ([.takingAWhile, .poem lines], 2)
    | (_, .err (.rhymeNotFound _ _ _)) => ([.takingAWhile, .finalApology], 2)
    | (_, .err .rhymeUnavailable) => ([.takingAWhile], 2)
    | (_, .err _) => ([.takingAWhile], 2)
  | (_, .err .rhymeUnavailable) => ([.apiDown], 1)
  | (_, .err _) => ([], 1)

/-- A sampler that always yields a line already in the poem text and whose
last word rhymes with nothing the search wants. -/
def envDupLine : Env := ⟨fun _ => "hello cat", fun _ => some []⟩

/-- A sampler whose lines never satisfy the (empty) target rhyme set. -/
def envUnreachable : Env := ⟨fun _ => "cat", fun _ => some []⟩

/-- A sampler that always repeats one sentence; its last word does have
rhymes, so a first-occurrence unit can be seeded. -/
def envRepeat : Env :=
  ⟨fun _ => "i see a cat",
   fun w => if w = "cat" then some ["hat", "mat"] else some []⟩

/-- A rhyme oracle that is down for every word. -/
def envOracleDown : Env := ⟨fun _ => "i see a cat", fun _ => none⟩

/-- A sampler that yields the empty string, on which `_get_last_word`
raises. -/
def envEmptyLine : Env := ⟨fun _ => "", fun _ => some []⟩

/-- First draw seeds unit `a` with the rhyme set of `cat`; every later draw
is the same non-rhyming sentence, so the bounded search fails, and the
retried attempt re-walks the scheme on the decremented counts. -/
def envRetryTrace : Env :=
  ⟨fun n => if n = 0 then "i see a cat" else "we go home",
   fun w => if w = "cat" then some ["hat"] else some []⟩

/-- Like `envRetryTrace` but with pairwise-distinct later draws, so the
retried attempt also exhausts its search bound. -/
def envRetryFail : Env :=
  ⟨fun n => if n = 0 then "i see a cat" else "line " ++ Nat.repr n,
   fun w => if w = "cat" then some ["hat"] else some []⟩

/-- Looking a key up in an association list built by pairing each list
element with a function of itself yields that function value. -/
theorem lookup_map_pair (f : Char → Int) :
    ∀ (l : List Char) (c : Char), c ∈ l →
      (l.map (fun x => (x, f x))).lookup c = some (f c) := by
  intro l
  induction l with
  | nil => intro c hc; cases hc
  | cons a t ih =>
    intro c hc
    rcases List.mem_cons.mp hc with h | h
    · subst h
      simp [List.lookup]
    · by_cases he : c = a
      · subst he; simp [List.lookup]
      · have hb : (c == a) = false := by simp [he]
        simp only [List.map_cons, List.lookup, hb]
        exact ih c h

/-- Dropping while a predicate holds of every element empties the list. -/
theorem dropWhile_eq_nil_of_forall {p : Char → Bool} :
    ∀ l : List Char, (∀ x ∈ l, p x = true) → l.dropWhile p = [] := by
  intro l
  induction l with
  | nil => intro _; rfl
  | cons a t ih =>
    intro h
    rw [List.dropWhile_cons]
    simp only [h a (List.mem_cons_self a t), if_true]
    exact ih (fun x hx => h x (List.mem_cons_of_mem a hx))

/-- Membership survives `dropWhile`. -/
theorem mem_of_mem_dropWhile {p : Char → Bool} :
    ∀ (l : List Char) (x : Char), x ∈ l.dropWhile p → x ∈ l := by
  intro l
  induction l with
  | nil => intro x hx; exact hx
  | cons a t ih =>
    intro x hx
    rw [List.dropWhile_cons] at hx
    by_cases h : p a
    · simp only [h, if_true] at hx
      exact List.mem_cons_of_mem a (ih x hx)
    · simp only [h] at hx
      simpa using hx

/-- When every drawn sentence has a last word outside the target set and is
not contained in the existing-lines text, the `_get_rhyming_line` loop runs
its full bound: starting with `remaining` permitted further draws it makes
exactly `remaining` more draws and raises `RhymingSentenceNotFound`. -/
theorem grlAux_unreachable (env : Env) (tgt : List String) (ex : String)
    (f : Bool) (sch : String) (uc : List (Char × Int))
    (h : ∀ n, ∃ w, lastWordOpt (env.sents n) = some w ∧
      tgt.contains w = false ∧ strContains ex (env.sents n) = false) :
    ∀ (remaining : Nat) (line : String) (st : GenState),
    (∃ w, lastWordOpt line = some w ∧ tgt.contains w = false ∧
      strContains ex line = false) →
    grlAux env tgt ex f sch uc remaining line st =
      ({ st with idx := st.idx + remaining }, .err (.rhymeNotFound f sch uc)) := by
  intro remaining
  induction remaining with
  | zero =>
    rintro line st ⟨w, hw, hc, hd⟩
    simp only [grlAux]
    rw [hw]
    simp only [hc, hd]
    rfl
  | succ r ih =>
    rintro line st ⟨w, hw, hc, hd⟩
    simp only [grlAux]
    rw [hw]
    simp only [hc, hd]
    show grlAux env tgt ex f sch uc r (env.sents st.idx)
        { st with idx := st.idx + 1 } =
      ({ st with idx := st.idx + (r + 1) }, .err (.rhymeNotFound f sch uc))
    rw [ih (env.sents st.idx) { st with idx := st.idx + 1 } (h st.idx)]
    have hidx : st.idx + 1 + r = st.idx + (r + 1) := by omega
    rw [hidx]

/-- A sentence without a last word makes the search loop raise the index
error regardless of the remaining bound. -/
theorem grlAux_indexError (env : Env) (tgt : List String) (ex : String)
    (f : Bool) (sch : String) (uc : List (Char × Int)) (remaining : Nat)
    (line : String) (st : GenState) (h : lastWordOpt line = none) :
    grlAux env tgt ex f sch uc remaining line st = (st, .err .indexError) := by
  cases remaining with
  | zero => simp only [grlAux]; rw [h]
  | succ r => simp only [grlAux]; rw [h]

/-- C1: the claimed acceptance condition of the rhyming line search fails
on the code.  `_get_rhyming_line` keeps drawing only while the candidate
both fails to rhyme AND is absent from the existing lines, so a line whose
text is already present in the poem is returned even though its final word
is not in the target rhyme set — the claim says such a line is never
returned.  The conjuncts exhibit the accepted line, its presence among the
existing lines, its last word, and that word's absence from the target
set. -/
theorem duplicate_line_accepted_c1 :
    (getRhymingLine envDupLine [] "hello cat" true "a" [('a', 2)]
      rhymingLineFinderLimiter ⟨0, []⟩).2 = .ok "hello cat" ∧
    strContains "hello cat" "hello cat" = true ∧
    lastWordOpt "hello cat" = some "cat" ∧
    ([] : List String).contains "cat" = false := by decide

/-- C2 (amended): with a target rhyme set no supplied sentence satisfies
and no drawn sentence contained in the existing-lines text, the rhyming
line search draws exactly `limiter + 1` candidate sentences — one initial
draw plus `limiter` in-loop draws, visible as the advance of the draw
index — and then fails with `RhymingSentenceNotFound`; the claimed count of
exactly `limiter` draws is off by one (see the counterexample). -/
theorem rhyming_search_draw_count_c2 (env : Env) (tgt : List String)
    (ex : String) (f : Bool) (sch : String) (uc : List (Char × Int))
    (limiter : Nat) (st : GenState)
    (h : ∀ n, ∃ w, lastWordOpt (env.sents n) = some w ∧
      tgt.contains w = false ∧ strContains ex (env.sents n) = false) :
    getRhymingLine env tgt ex f sch uc limiter st =
      ({ st with idx := st.idx + limiter + 1 }, .err (.rhymeNotFound f sch uc)) := by
  show grlAux env tgt ex f sch uc limiter (env.sents st.idx)
      { st with idx := st.idx + 1 } = _
  rw [grlAux_unreachable env tgt ex f sch uc h limiter (env.sents st.idx)
      { st with idx := st.idx + 1 } (h st.idx)]
  have hidx : st.idx + 1 + limiter = st.idx + limiter + 1 := by omega
  rw [hidx]

/-- C2 witness: at bound 3 from a fresh state, the failing search leaves
the draw index at 4, i.e. it made 3 + 1 draws. -/
theorem rhyming_search_draw_count_c2_witness :
    getRhymingLine envUnreachable [] "" true "aa" [] 3 ⟨0, []⟩ =
      (⟨4, []⟩, .err (.rhymeNotFound true "aa" [])) := by
  have h := rhyming_search_draw_count_c2 envUnreachable [] "" true "aa" [] 3
    ⟨0, []⟩ (fun n => ⟨"cat", rfl, rfl, rfl⟩)
  simpa using h

/-- C2 counterexample: with the default bound 80000 and an unreachable
rhyme set the search makes 80001 draws before failing, not exactly
80000. -/
theorem rhyming_search_bound_c2_counterexample :
    getRhymingLine envUnreachable [] "" true "aa" [] rhymingLineFinderLimiter
      ⟨0, []⟩ = (⟨80001, []⟩, .err (.rhymeNotFound true "aa" [])) ∧
    (80001 : Nat) ≠ rhymingLineFinderLimiter := by
  constructor
  · show grlAux envUnreachable [] "" true "aa" [] 80000 "cat" ⟨1, []⟩ = _
    rw [grlAux_unreachable envUnreachable [] "" true "aa" []
        (fun n => ⟨"cat", rfl, rfl, rfl⟩) 80000 "cat" ⟨1, []⟩
        ⟨"cat", rfl, rfl, rfl⟩]
  · decide

/-- C3: when the first generation attempt raises
`RhymingSentenceNotFound` and the retried attempt — re-invoked by
`cog_command_error` with the exception's scheme and its current, already
decremented unit counts and `is_first_error = False` — raises it again, the
caller sees exactly the taking-a-while notification followed by the final
apology, and exactly two generation attempts are started. -/
theorem retry_protocol_c3 (env : Env) (fuel limiter : Nat) (rs : String)
    (st1 : GenState) (s1 : String) (uc1 : List (Char × Int))
    (st2 : GenState) (s2 : String) (uc2 : List (Char × Int))
    (h1 : sendMarkovPoem env fuel limiter (resolveScheme rs)
        (getUnitCount (resolveScheme rs)) true ⟨0, []⟩ =
        (st1, .err (.rhymeNotFound true s1 uc1)))
    (h2 : sendMarkovPoem env fuel limiter s1 uc1 false st1 =
        (st2, .err (.rhymeNotFound false s2 uc2))) :
    runPoemCommand env fuel limiter rs =
      ([.takingAWhile, .finalApology], 2) := by
  simp only [runPoemCommand, h1, h2]

/-- C3 witness: a concrete run in which both attempts exhaust the search
bound. -/
theorem retry_protocol_c3_witness :
    runPoemCommand envRetryFail 5 2 "aa" =
      ([Msg.takingAWhile, Msg.finalApology], 2) :=
  retry_protocol_c3 envRetryFail 5 2 "aa" ⟨4, [("cat", ["hat"])]⟩ "aa"
    [('a', 1)] ⟨8, [("4", []), ("cat", ["hat"])]⟩ "aa" [('a', 0)]
    (by decide) (by decide)

/-- C4: the `poem` command lowercases the entire caller-supplied scheme
before the template lookup, so unit symbols are NOT case-sensitive: the
scheme `"aA"` becomes `"aa"`, whose unit-count map has no unit `A` and
counts `a` twice — one rhyme unit, not two distinct ones as the claim (and
the command's own help text) state.  Template-key lookup itself is indeed
case-insensitive. -/
theorem scheme_lowercased_c4 :
    resolveScheme "aA" = "aa" ∧
    (getUnitCount (resolveScheme "aA")).lookup 'A' = none ∧
    (getUnitCount (resolveScheme "aA")).lookup 'a' = some 2 ∧
    resolveScheme "ShAkEsPeArEaN-sOnNeT" = "abab/cdcd/efef/gg" := by decide

/-- C5: a successfully generated poem can contain two textually identical
lines, contradicting the claimed invariant: with scheme `"aa"` and a
sampler that repeats one sentence, the second occurrence of the unit
accepts the duplicate (because the search's rejection condition uses
conjunction instead of disjunction) and the delivered line list is not
duplicate-free. -/
theorem poem_duplicate_lines_c5 :
    (sendMarkovPoem envRepeat 5 rhymingLineFinderLimiter "aa"
      (getUnitCount "aa") true ⟨0, []⟩).2 =
      .ok (["i see a cat", "i see a cat"], [('a', 0)]) ∧
    ¬ (["i see a cat", "i see a cat"] : List String).Nodup := by decide

/-- C6 counterexample: `_get_unit_count` maps the stanza-break symbol of
the scheme `"a/"` to 1, not to the claimed 0. -/
theorem unit_count_slash_c6_counterexample :
    ¬ (getUnitCount "a/").lookup '/' = some 0 := by decide

/-- C6 (amended): the unit-count map assigns to EVERY symbol occurring in
the scheme — the stanza-break `/` included — its number of occurrences in
the scheme; `/` is not special-cased to zero. -/
theorem unit_count_counts_c6 (scheme : String) (c : Char)
    (h : c ∈ scheme.data) :
    (getUnitCount scheme).lookup c = some (scheme.data.count c : Int) := by
  unfold getUnitCount
  exact lookup_map_pair _ _ _ (List.mem_dedup.mpr h)

/-- C6 witness: the stanza-break symbol of `"a/"` is mapped to its
occurrence count 1. -/
theorem unit_count_counts_c6_witness :
    '/' ∈ ("a/").data ∧
    (getUnitCount "a/").lookup '/' = some (("a/").data.count '/' : Int) :=
  ⟨by decide, unit_count_counts_c6 "a/" '/' (by decide)⟩

/-- C7: the rhyme cache commits only on success.  For an uncached word, a
failing oracle leaves the cache unchanged (so a later call queries the
oracle again), while an oracle that succeeds with the empty set gets the
empty set cached, and a repeated lookup of that word returns it without
invoking the oracle. -/
theorem cache_commit_policy_c7 (cache : List (String × List String))
    (word : String) (or1 or2 : String → Option (List String))
    (hmiss : cache.lookup (normalizeWord word) = none)
    (h1 : or1 (normalizeWord word) = none)
    (h2 : or2 (normalizeWord word) = some []) :
    getOrCompute cache word or1 = (cache, none, true) ∧
    (getOrCompute ((getOrCompute cache word or1).1) word or1).2.2 = true ∧
    getOrCompute cache word or2 =
      ((normalizeWord word, []) :: cache, some [], true) ∧
    getOrCompute ((normalizeWord word, []) :: cache) word or2 =
      ((normalizeWord word, []) :: cache, some [], false) := by
  have base : getOrCompute cache word or1 = (cache, none, true) := by
    simp only [getOrCompute]
    rw [hmiss, h1]
  refine ⟨base, ?_, ?_, ?_⟩
  · rw [base]
    show (getOrCompute cache word or1).2.2 = true
    rw [base]
  · simp only [getOrCompute]
    rw [hmiss, h2]
  · simp only [getOrCompute]
    simp [List.lookup]

/-- C7 witness: concrete cache states for the failing and the
empty-success oracle. -/
theorem cache_commit_policy_c7_witness :
    getOrCompute [] "cat" (fun _ => none) = ([], none, true) ∧
    getOrCompute [(normalizeWord "cat", [])] "cat"
        (fun _ => some ([] : List String)) =
      ([(normalizeWord "cat", [])], some [], false) := by
  have h := cache_commit_policy_c7 [] "cat" (fun _ => none)
    (fun _ => some []) rfl rfl rfl
  exact ⟨h.1, h.2.2.2⟩

/-- C8: `_get_last_word` is not total.  It yields no word on the empty
string, on a string of punctuation characters only, and on a string of
whitespace only, and a drawn sentence without a last word makes the rhyming
line search fail with the index error — so every consumer of a drawn
sentence implicitly requires a non-punctuation token. -/
theorem last_word_partial_c8 :
    lastWordOpt "" = none ∧
    (∀ s : String, (∀ c ∈ s.data, punctuationChars.contains c = true) →
      lastWordOpt s = none) ∧
    (∀ s : String, (∀ c ∈ s.data, isSpaceChar c = true) →
      lastWordOpt s = none) ∧
    (∀ (env : Env) (tgt : List String) (ex : String) (f : Bool)
      (sch : String) (uc : List (Char × Int)) (lim : Nat) (st : GenState),
      lastWordOpt (env.sents st.idx) = none →
      (getRhymingLine env tgt ex f sch uc lim st).2 = .err .indexError) := by
  refine ⟨rfl, ?_, ?_, ?_⟩
  · intro s h
    have h1 : s.data.dropWhile (fun c => punctuationChars.contains c) = [] :=
      dropWhile_eq_nil_of_forall _ h
    simp only [lastWordOpt, stripChars, h1, List.reverse_nil, List.dropWhile_nil]
    rfl
  · intro s h
    have hsub : ∀ x ∈ (stripChars punctuationChars s.data).reverse,
        isSpaceChar x = true := by
      intro x hx
      refine h x ?_
      have hx1 := List.mem_reverse.mp hx
      unfold stripChars at hx1
      have hx2 := List.mem_reverse.mp hx1
      have hx3 := mem_of_mem_dropWhile _ _ hx2
      have hx4 := List.mem_reverse.mp hx3
      exact mem_of_mem_dropWhile _ _ hx4
    have hr : (stripChars punctuationChars s.data).reverse.dropWhile
        isSpaceChar = [] := dropWhile_eq_nil_of_forall _ hsub
    simp only [lastWordOpt, hr]
    rfl
  · intro env tgt ex f sch uc lim st h
    show (grlAux env tgt ex f sch uc lim (env.sents st.idx)
      { st with idx := st.idx + 1 }).2 = .err .indexError
    rw [grlAux_indexError env tgt ex f sch uc lim (env.sents st.idx)
      { st with idx := st.idx + 1 } h]

/-- C8 witness: concrete punctuation-only and whitespace-only sentences,
and a search that fails on the empty sentence. -/
theorem last_word_partial_c8_witness :
    lastWordOpt ".,!?" = none ∧ lastWordOpt "   " = none ∧
    (getRhymingLine envEmptyLine [] "" true "a" [] 3 ⟨0, []⟩).2 =
      .err .indexError :=
  ⟨last_word_partial_c8.2.1 ".,!?" (by decide),
   last_word_partial_c8.2.2.1 "   " (by decide),
   last_word_partial_c8.2.2.2 envEmptyLine [] "" true "a" [] 3 ⟨0, []⟩ rfl⟩

/-- C9: `_init_unit` queries the rhyme oracle even when `is_last_line`
holds and the drawn line is accepted without any rhyme requirement, so a
`RhymeAPIUnresponsive` failure aborts generation; in particular the scheme
`"ab"`, which has no repeated units, fails when the oracle is down. -/
theorem init_unit_oracle_c9 (env : Env) (fuel : Nat) (w : String)
    (hw : lastWordOpt (env.sents 0) = some w)
    (hfail : env.rhymes (normalizeWord w) = none) :
    initUnit env fuel true ⟨0, []⟩ = (⟨1, []⟩, .err .rhymeUnavailable) ∧
    (sendMarkovPoem envOracleDown 3 2 "ab" (getUnitCount "ab") true
      ⟨0, []⟩).2 = .err .rhymeUnavailable := by
  constructor
  · simp only [initUnit, getLineAndRhymeSet, getSentence, if_true]
    rw [hw]
    simp only [getRhymeSetSt, getOrCompute, List.lookup]
    rw [hfail]
  · decide

/-- C9 witness: the down-oracle environment instantiates both parts. -/
theorem init_unit_oracle_c9_witness :
    initUnit envOracleDown 3 true ⟨0, []⟩ = (⟨1, []⟩, .err .rhymeUnavailable) ∧
    (sendMarkovPoem envOracleDown 3 2 "ab" (getUnitCount "ab") true
      ⟨0, []⟩).2 = .err .rhymeUnavailable :=
  init_unit_oracle_c9 envOracleDown 3 "cat" rfl rfl

/-- C10: the non-negativity of unit counts is not preserved across the
single retry.  On scheme `"aa"` the first attempt fails carrying the
already-decremented count `a = 1`; the retry re-walks the whole scheme with
that count, so its first position is now classified as a last occurrence
(count = 1) where the first attempt saw count 2, and the retry finishes
with the count at -1.  The final conjunct shows the full command run
delivering that retry's poem after exactly two attempts. -/
theorem retry_counts_c10 :
    sendMarkovPoem envRetryTrace 5 2 "aa" (getUnitCount "aa") true ⟨0, []⟩ =
      (⟨4, [("cat", ["hat"])]⟩, .err (.rhymeNotFound true "aa" [('a', 1)])) ∧
    (sendMarkovPoem envRetryTrace 5 2 "aa" [('a', 1)] false
      ⟨4, [("cat", ["hat"])]⟩).2 =
      .ok (["we go home", "we go home"], [('a', -1)]) ∧
    (([('a', (2 : Int))].lookup 'a') == some 1) = false ∧
    (([('a', (1 : Int))].lookup 'a') == some 1) = true ∧
    (-1 : Int) < 0 ∧
    runPoemCommand envRetryTrace 5 2 "aa" =
      ([Msg.takingAWhile, Msg.poem ["we go home", "we go home"]], 2) := by
  decide
